import Mathlib

/-!
Verification development for the sora2api generation pipeline.

This file gives a shallow embedding, in Lean 4, of the parts of the
repository's Python source that the frozen claims speak about:

* `src/services/generation_handler.py` — the model table `MODEL_CONFIG`,
  the resource acquisition/release discipline of `handle_generation` and
  `_poll_task_result`, the remix prompt cleaner
  `_clean_remix_link_from_prompt`, and the character username helper
  `_process_character_username`;
* `src/services/sora_client.py` — the proof-of-work solver `_solve_pow`,
  the sentinel-token retry logic of `generate_video`, and the storyboard
  helpers `is_storyboard_prompt` / `format_storyboard_prompt`.

Python strings are modelled as `List Char` (with `String` wrappers at the
boundary), bytes as `List Nat`, and machine integers as `Nat`/`Int` (the
quantities involved never overflow in Python, whose ints are unbounded).
Library calls that the claims do not inspect internally — `hashlib.sha3_512`
and the serialization of non-integer JSON atoms — are abstracted as explicit
function parameters or data, exactly at the call boundary of the source.
Effectful code (locking, HTTP calls, database writes) is modelled as pure
functions from an abstract environment (the results of the awaited calls)
to the list of emitted resource/record events plus the request's outcome.
-/

namespace Sora2

/-! ## Basic Python-string utilities -/

/-- Python whitespace for `str.split()` / `str.strip()` / regex `\s`
(the ASCII part, which is all the analysed prompts contain):
space, tab, newline, carriage return, vertical tab, form feed. -/
def pyIsSpace (c : Char) : Bool :=
  c == ' ' || c == '\t' || c == '\n' || c == '\r' ||
  c == Char.ofNat 11 || c == Char.ofNat 12

/-- Python `str.strip()`: drop leading and trailing whitespace. -/
def pyStrip (l : List Char) : List Char :=
  ((l.dropWhile pyIsSpace).reverse.dropWhile pyIsSpace).reverse

/-- Join a list of character lists with a separator, like Python
`sep.join(parts)`. -/
def sepJoin (sep : List Char) : List (List Char) → List Char
  | [] => []
  | [x] => x
  | x :: xs => x ++ sep ++ sepJoin sep xs

/-- Accumulator loop behind `pySplitWs`: `acc` holds the reversed chars of
the word being read. -/
def wordsAcc (acc : List Char) : List Char → List (List Char)
  | [] => if acc.isEmpty then [] else [acc.reverse]
  | c :: rest =>
    if pyIsSpace c then
      if acc.isEmpty then wordsAcc [] rest else acc.reverse :: wordsAcc [] rest
    else
      wordsAcc (c :: acc) rest

/-- Python `str.split()` with no argument: split on runs of whitespace,
dropping empty pieces. -/
def pySplitWs (l : List Char) : List (List Char) := wordsAcc [] l

/-- UTF-8 encoding of one character, as Python `str.encode()` produces it. -/
def utf8Bytes (c : Char) : List Nat :=
  let n := c.toNat
  if n < 128 then [n]
  else if n < 2048 then [192 + n / 64, 128 + n % 64]
  else if n < 65536 then [224 + n / 4096, 128 + n / 64 % 64, 128 + n % 64]
  else [240 + n / 262144, 128 + n / 4096 % 64, 128 + n / 64 % 64, 128 + n % 64]

/-- Bytes of a character list under UTF-8 (Python `.encode()`). -/
def chBytes (l : List Char) : List Nat := (l.map utf8Bytes).flatten

/-- Bytes of a string under UTF-8 (Python `str.encode()`). -/
def strBytes (s : String) : List Nat := chBytes s.data

/-! ## The model table (`MODEL_CONFIG`, generation_handler.py lines 21-69) -/

/-- One value of the Python dict `MODEL_CONFIG`: image entries carry
`width`/`height`, video entries `orientation`/`n_frames`. -/
structure ModelCfg where
  mtype : String
  width : Option Int
  height : Option Int
  orientation : Option String
  nFrames : Option Int
  deriving DecidableEq, Repr

/-- The `MODEL_CONFIG` dictionary of generation_handler.py, entry for entry. -/
def MODEL_CONFIG : List (String × ModelCfg) := [
  ("sora-image",
    { mtype := "image", width := some 360, height := some 360,
      orientation := none, nFrames := none }),
  ("sora-image-landscape",
    { mtype := "image", width := some 540, height := some 360,
      orientation := none, nFrames := none }),
  ("sora-image-portrait",
    { mtype := "image", width := some 360, height := some 540,
      orientation := none, nFrames := none }),
  ("sora-video-10s",
    { mtype := "video", width := none, height := none,
      orientation := some "landscape", nFrames := some 300 }),
  ("sora-video-landscape-10s",
    { mtype := "video", width := none, height := none,
      orientation := some "landscape", nFrames := some 300 }),
  ("sora-video-portrait-10s",
    { mtype := "video", width := none, height := none,
      orientation := some "portrait", nFrames := some 300 }),
  ("sora-video-15s",
    { mtype := "video", width := none, height := none,
      orientation := some "landscape", nFrames := some 450 }),
  ("sora-video-landscape-15s",
    { mtype := "video", width := none, height := none,
      orientation := some "landscape", nFrames := some 450 }),
  ("sora-video-portrait-15s",
    { mtype := "video", width := none, height := none,
      orientation := some "portrait", nFrames := some 450 })]

/-- Python `MODEL_CONFIG[model]` guarded by `model in MODEL_CONFIG`
(generation_handler.py lines 227-230). -/
def modelConfigLookup (m : String) : Option ModelCfg := MODEL_CONFIG.lookup m

/-- The names accepted by the model table, for the statement of C6. -/
def acceptedModelNames : List String :=
  ["sora-image", "sora-image-landscape", "sora-image-portrait",
   "sora-video-10s", "sora-video-landscape-10s", "sora-video-portrait-10s",
   "sora-video-15s", "sora-video-landscape-15s", "sora-video-portrait-15s"]

/-- The `json_data` body built by `SoraClient.generate_video`
(sora_client.py lines 1066-1075); `inpaintUploadId` models the optional
`inpaint_items` entry built from `media_id`. -/
structure VideoGenPayload where
  kind : String
  prompt : String
  orientation : String
  size : String
  nFrames : Int
  model : String
  inpaintUploadId : Option String
  styleId : Option String
  deriving DecidableEq, Repr

/-- `generate_video`'s request body from its arguments (sora_client.py
lines 1059-1075, with the caller-visible defaults `model="sy_8"`,
`size="small"`, `style_id=None` of lines 1043-1045). -/
def videoGenPayload (prompt : String) (orientation : String) (nFrames : Int)
    (mediaId : Option String) : VideoGenPayload :=
  { kind := "video", prompt := prompt, orientation := orientation,
    size := "small", nFrames := nFrames, model := "sy_8",
    inpaintUploadId := mediaId, styleId := none }

/-- What `handle_generation` submits for a video model m (generation_handler.py
lines 338-366, vanilla video branch): orientation is
`model_config["orientation"]`, n_frames is `model_config.get("n_frames", 300)`.
Returns `none` when the model is rejected or is not a video model. -/
def submittedVideoPayload (m : String) (prompt : String) :
    Option VideoGenPayload :=
  match modelConfigLookup m with
  | none => none
  | some cfg =>
    if cfg.mtype == "video" then
      match cfg.orientation with
      | some o => some (videoGenPayload prompt o (cfg.nFrames.getD 300) none)
      | none => none
    else
      none

/-! ## Substring matching (Python `in` on strings, `str.lower()`) -/

/-- Python `sub in s` on strings: `sub` occurs contiguously in `s`. -/
def hasSubstr (s sub : List Char) : Bool :=
  s.tails.any fun t => sub.isPrefixOf t

/-- Python `str.lower()` (ASCII range, which is all the matched literals use). -/
def pyLower (s : List Char) : List Char := s.map Char.toLower

/-! ## The `handle_generation` resource/record trace
(generation_handler.py lines 209-444 and `_poll_task_result` lines 446-852)

The model covers the vanilla image/video flow (no `video` argument, no
`remix_target_id`): the remix and character sub-flows acquire no lock and no
concurrency slot.  Events record the calls the claims C1/C2/C6 speak about:
the per-token image lock, the two concurrency-slot classes, and
`token_manager.record_error` (which per spec §3 increments the selected
token's error counter; `token_manager.py` is not part of the staged
sources).  Database writes, stream chunks, `record_usage` and
`record_success` are not represented.  The selected token's id is assumed
truthy (ids start at 1), so the `token_id` guards in `_poll_task_result`
lines 477/486 pass. -/

/-- One observable call of the handler. -/
inductive HEvent
  | acqLock | relLock
  | acqImgSlot | relImgSlot
  | acqVidSlot | relVidSlot
  | recordError
  deriving DecidableEq, Repr

/-- How the body of `handle_generation`'s `try` block (lines 306-416) ends:
normally; with the timeout raise inside `_poll_task_result` (lines 470-491
and 837-852, which releases resources itself before raising); with any other
exception (a subclass of `Exception`, e.g. an upload, submit or poll
failure, carrying message `msg`); or with an `asyncio.CancelledError`
thrown at an await point (which in Python 3.8+ is a `BaseException`, not an
`Exception`). -/
inductive BodyOutcome
  | success
  | pollTimeout
  | bodyError (msg : String)
  | cancelled
  deriving DecidableEq, Repr

/-- The error the modelled request settles with, labelled by the raise site. -/
inductive HandlerErr
  | invalidModel (model : String)
  | noEligibleToken
  | lockFailed
  | slotFailed
  | upstreamTimeout
  | bodyFailure (msg : String)
  | cancelledErr
  deriving DecidableEq, Repr

/-- The releases issued by `_poll_task_result` on its timeout paths
(generation_handler.py lines 476-488 and 837-849): image jobs release the
token lock and, when a concurrency manager is configured, the image slot;
video jobs release the video slot when a concurrency manager is configured. -/
def pollTimeoutReleases (isVideo hasCM : Bool) : List HEvent :=
  (if !isVideo then
    [HEvent.relLock] ++ (if hasCM then [HEvent.relImgSlot] else [])
  else []) ++
  (if isVideo && hasCM then [HEvent.relVidSlot] else [])

/-- The releases of `handle_generation`'s success path (lines 396-405) and of
its `except` clause (lines 419-428), which are textually the same. -/
def terminalReleases (isImage isVideo hasCM : Bool) : List HEvent :=
  (if isImage then
    [HEvent.relLock] ++ (if hasCM then [HEvent.relImgSlot] else [])
  else []) ++
  (if isVideo && hasCM then [HEvent.relVidSlot] else [])

/-- The vanilla flow of `handle_generation` (generation_handler.py lines
209-444) as a trace of events plus the outcome.  Parameters: the model name;
`stream`; whether `select_token` returns a token (`tokenAvail`, line 277);
whether `acquire_lock` succeeds (`lockOk`, line 286); whether the
concurrency slot acquisition succeeds (`slotOk`, lines 292/299); whether a
concurrency manager is configured (`hasCM`); and how the `try` body ends. -/
def handleGen (model : String) (stream tokenAvail lockOk slotOk hasCM : Bool)
    (outcome : BodyOutcome) : List HEvent × Option HandlerErr :=
  match modelConfigLookup model with
  | none => ([], some (HandlerErr.invalidModel model))
  | some cfg =>
    let isVideo := cfg.mtype == "video"
    let isImage := cfg.mtype == "image"
    if !stream then
      ([], none)
    else if !tokenAvail then
      ([], some HandlerErr.noEligibleToken)
    else if isImage && !lockOk then
      ([], some HandlerErr.lockFailed)
    else if isImage && hasCM && !slotOk then
      ([HEvent.acqLock, HEvent.relLock], some HandlerErr.slotFailed)
    else if isVideo && hasCM && !slotOk then
      ([], some HandlerErr.slotFailed)
    else
      let acq :=
        (if isImage then
          [HEvent.acqLock] ++ (if hasCM then [HEvent.acqImgSlot] else [])
        else []) ++
        (if isVideo && hasCM then [HEvent.acqVidSlot] else [])
      match outcome with
      | BodyOutcome.success =>
        (acq ++ terminalReleases isImage isVideo hasCM, none)
      | BodyOutcome.pollTimeout =>
        (acq ++ pollTimeoutReleases isVideo hasCM ++
          terminalReleases isImage isVideo hasCM ++ [HEvent.recordError],
         some HandlerErr.upstreamTimeout)
      | BodyOutcome.bodyError msg =>
        (acq ++ terminalReleases isImage isVideo hasCM ++ [HEvent.recordError],
         some (HandlerErr.bodyFailure msg))
      | BodyOutcome.cancelled =>
        (acq, some HandlerErr.cancelledErr)

/-! ## The `generate_video` sentinel retry flow
(sora_client.py lines 1043-1140) -/

/-- Observable calls of `generate_video`: `_get_cached_sentinel_token`
(with its `force_refresh` flag), the manual PoW fallback
`_generate_sentinel_token`, `_invalidate_sentinel_cache`, and the
`/nf/create` submission `_nf_create_urllib` with the sentinel token it
carries. -/
inductive GVEvent
  | fetchCached (force : Bool)
  | manualGen
  | invalidateCache
  | nfCreate (sentinel : String)
  deriving DecidableEq, Repr

/-- The environment of one `generate_video` run: the results of the awaited
calls.  `Except.error msg` models the call raising an exception whose
`str()` is `msg`; `Except.ok` its return value (`none` when
`_get_cached_sentinel_token` returns `None`). -/
structure GVEnv where
  cachedFetch : Except String (Option String)
  manualInit : Except String String
  firstCreate : Except String String
  refreshFetch : Except String (Option String)
  manualRetry : Except String String
  secondCreate : Except String String

/-- The error-class test of sora_client.py line 1115: a 400-class or
sentinel-invalid error message. -/
def err400Match (msg : String) : Bool :=
  hasSubstr msg.data "400".data ||
  hasSubstr (pyLower msg.data) "sentinel".data ||
  hasSubstr (pyLower msg.data) "invalid".data

/-- The blocking-error test of sora_client.py lines 1092 and 1126. -/
def err403or429 (msg : String) : Bool :=
  hasSubstr msg.data "403".data || hasSubstr msg.data "429".data

/-- Resolving a usable sentinel token from one `_get_cached_sentinel_token`
call plus the manual PoW fallback (sora_client.py lines 1087-1105 for the
first attempt, 1121-1133 for the retry): a raised 403/429 propagates
(lines 1092/1126-1127); any other raise, or a `None` return, falls back to
`_generate_sentinel_token`, whose own failure propagates (it is awaited
outside any `try`).  Returns the `manualGen` event when the fallback ran. -/
def gvResolveTok (fetch : Except String (Option String))
    (manual : Except String String) : List GVEvent × Except String String :=
  match fetch with
  | Except.error e =>
    if err403or429 e then ([], Except.error e) else ([GVEvent.manualGen], manual)
  | Except.ok (some t) => ([], Except.ok t)
  | Except.ok none => ([GVEvent.manualGen], manual)

/-- `SoraClient.generate_video` (sora_client.py lines 1077-1140), reduced to
its sentinel-token acquisition and `/nf/create` retry control flow.  Returns
the event trace and the result (`Except.ok task_id` or the propagated
exception message).  On a first `/nf/create` failure matching
`err400Match`, the cache is invalidated, the token refreshed once
(`force_refresh=True`) and `/nf/create` retried exactly once, the retry's
result propagating either way; a non-matching failure is re-raised
(line 1140). -/
def generateVideoFlow (env : GVEnv) : List GVEvent × Except String String :=
  let (evA, tokA) := gvResolveTok env.cachedFetch env.manualInit
  let evs0 := GVEvent.fetchCached false :: evA
  match tokA with
  | Except.error e => (evs0, Except.error e)
  | Except.ok t =>
    let evs1 := evs0 ++ [GVEvent.nfCreate t]
    match env.firstCreate with
    | Except.ok id1 => (evs1, Except.ok id1)
    | Except.error e1 =>
      if err400Match e1 then
        let evs2 := evs1 ++ [GVEvent.invalidateCache, GVEvent.fetchCached true]
        let (evB, tokB) := gvResolveTok env.refreshFetch env.manualRetry
        let evs3 := evs2 ++ evB
        match tokB with
        | Except.error re => (evs3, Except.error re)
        | Except.ok t2 => (evs3 ++ [GVEvent.nfCreate t2], env.secondCreate)
      else
        (evs1, Except.error e1)

/-! ## The proof-of-work solver (`SoraClient._solve_pow`, sora_client.py
lines 455-481)

The 18-slot fingerprint config list mixes integers (slots 0, 2, 3, 9, 16),
floats, strings and a `null`.  `_solve_pow` treats slot 9 as an integer
(`initial_j + (i + 29) // 30`) and splices the decimal texts of the two
dynamic slots into the JSON it assembled for the others, so atoms are
modelled as either an integer or an opaque already-serialized JSON text
(`json.dumps` of a number, string or `null` — never inspected by the
solver).  `hashlib.sha3_512(x).digest()` is abstracted as a function
parameter from input bytes to digest bytes. -/

/-- One slot of the fingerprint config array: an integer, or any other atom
carried as its JSON serialization. -/
inductive PAtom
  | pint (n : Int)
  | pother (ser : List Char)
  deriving DecidableEq, Repr

/-- The JSON text of one atom (`json.dumps` of a Python int is its decimal
text, which `toString (n : Int)` reproduces). -/
def dumpAtom : PAtom → List Char
  | PAtom.pint n => (toString n).data
  | PAtom.pother s => s

/-- Python `json.dumps(l, separators=(',', ':'))` for a flat list of atoms. -/
def dumpsList (l : List PAtom) : List Char :=
  '[' :: (sepJoin [','] (l.map dumpAtom) ++ [']'])

/-- The standard base64 alphabet. -/
def base64Table : List Char :=
  "ABCDEFGHIJKLMNOPQRSTUVWXYZabcdefghijklmnopqrstuvwxyz0123456789+/".data

/-- The base64 character of a 6-bit group. -/
def b64Char (n : Nat) : Char := base64Table.getD n 'A'

/-- Python `base64.b64encode` on a byte list (standard alphabet, `=`
padding), returned as the ASCII characters of the encoding. -/
def base64Encode : List Nat → List Char
  | [] => []
  | [a] => [b64Char (a / 4), b64Char (a % 4 * 16), '=', '=']
  | [a, b] => [b64Char (a / 4), b64Char (a % 4 * 16 + b / 16),
               b64Char (b % 16 * 4), '=']
  | a :: b :: c :: rest =>
    b64Char (a / 4) :: b64Char (a % 4 * 16 + b / 16) ::
    b64Char (b % 16 * 4 + c / 64) :: b64Char (c % 64) :: base64Encode rest

/-- Value of one hex digit. -/
def hexDigitVal (c : Char) : Option Nat :=
  if '0' ≤ c ∧ c ≤ '9' then some (c.toNat - '0'.toNat)
  else if 'a' ≤ c ∧ c ≤ 'f' then some (c.toNat - 'a'.toNat + 10)
  else if 'A' ≤ c ∧ c ≤ 'F' then some (c.toNat - 'A'.toNat + 10)
  else none

/-- Python `bytes.fromhex` on a plain even-length hex string (no embedded
spaces, which the analysed difficulty strings never contain); `none` models
the `ValueError` raise. -/
def hexDecode : List Char → Option (List Nat)
  | [] => some []
  | [_] => none
  | a :: b :: rest => do
    let x ← hexDigitVal a
    let y ← hexDigitVal b
    let r ← hexDecode rest
    pure ((16 * x + y) :: r)

/-- Python `<=` on `bytes`: lexicographic, a strict prefix ranking below the
longer sequence. -/
def bytesLE : List Nat → List Nat → Bool
  | [], _ => true
  | _ :: _, [] => false
  | x :: xs, y :: ys => if x < y then true else if y < x then false else bytesLE xs ys

/-- `POW_MAX_ITERATION` (sora_client.py line 318). -/
def POW_MAX_ITERATION : Nat := 500000

/-- The three static JSON fragments and `initial_j` that `_solve_pow`
precomputes (sora_client.py lines 462-465): `json.dumps(config[:3])[:-1]`
plus a comma; a comma plus `json.dumps(config[4:9])[1:-1]` plus a comma; a
comma plus `json.dumps(config[10:])[1:]`.  `none` when slot 9 is absent
(Python `IndexError` on `config_list[9]`) or not an integer (`TypeError` at
the addition in line 470). -/
structure PowParts where
  part1 : List Char
  part2 : List Char
  part3 : List Char
  initJ : Int
  deriving DecidableEq, Repr

/-- Compute the static parts from the config list. -/
def powParts (cfg : List PAtom) : Option PowParts :=
  match cfg.get? 9 with
  | some (PAtom.pint j) =>
    some { part1 := (dumpsList (cfg.take 3)).dropLast ++ [','],
           part2 := ',' :: (((dumpsList ((cfg.drop 4).take 5)).drop 1).dropLast
             ++ [',']),
           part3 := ',' :: (dumpsList (cfg.drop 10)).drop 1,
           initJ := j }
  | _ => none

/-- The spliced JSON candidate of iteration `i` (sora_client.py lines
468-472): `static_part1 + str(i) + static_part2 +
str(initial_j + (i + 29) // 30) + static_part3`. -/
def powCandidate (p : PowParts) (i : Nat) : List Char :=
  p.part1 ++ (toString i).data ++ p.part2 ++
  (toString (p.initJ + (((i + 29) / 30 : Nat) : Int))).data ++ p.part3

/-- The base64 text hashed (and, on success, returned) at iteration `i`. -/
def powCandidateB64 (p : PowParts) (i : Nat) : List Char :=
  base64Encode (chBytes (powCandidate p i))

/-- The acceptance test of iteration `i` (sora_client.py lines 475-477):
`sha3_512(seed_encoded + b64_encoded).digest()[:diff_len] <= target_diff`. -/
def powCheck (sha3 : List Nat → List Nat) (seedB : List Nat) (diffLen : Nat)
    (target : List Nat) (p : PowParts) (i : Nat) : Bool :=
  bytesLE ((sha3 (seedB ++ chBytes (powCandidateB64 p i))).take diffLen) target

/-- The deterministic error token of sora_client.py line 480:
`"wQ8Lk5FbGpA2NcR9dShT6gYjU7VxZ4D" + b64encode(f'"{seed}"'.encode())`. -/
def powErrToken (seed : String) : List Char :=
  "wQ8Lk5FbGpA2NcR9dShT6gYjU7VxZ4D".data ++
  base64Encode (strBytes ("\"" ++ seed ++ "\""))

/-- The search loop of `_solve_pow` (lines 467-481): `i` is the current
iteration, `fuel` the iterations left of the 500000. -/
def solvePowGo (sha3 : List Nat → List Nat) (seed : String) (seedB : List Nat)
    (diffLen : Nat) (target : List Nat) (p : PowParts) :
    Nat → Nat → List Char × Bool
  | _, 0 => (powErrToken seed, false)
  | i, fuel + 1 =>
    if powCheck sha3 seedB diffLen target p i then (powCandidateB64 p i, true)
    else solvePowGo sha3 seed seedB diffLen target p (i + 1) fuel

/-- `SoraClient._solve_pow` (sora_client.py lines 455-481): `none` models a
raise while preparing (invalid hex difficulty, or a config list without an
integer at slot 9); otherwise the returned `(solution, success)` pair, the
solution decoded back to a string. -/
def solvePow (sha3 : List Nat → List Nat) (seed : String) (difficulty : String)
    (cfg : List PAtom) : Option (String × Bool) :=
  let diffLen := difficulty.length / 2
  match hexDecode difficulty.data, powParts cfg with
  | some target, some p =>
    let r := solvePowGo sha3 seed (strBytes seed) diffLen target p 0
      POW_MAX_ITERATION
    some (String.mk r.1, r.2)
  | _, _ => none

/-- Modelled from the spec's words (§4.3, claim C5): the candidate of
iteration `i` is the base64 encoding of the JSON serialization of the
config array with slot 3 replaced by `i` and slot 9 replaced by
`initial_j + ceil((i + 1) / 30)`, where `initial_j` is the integer at slot
9 of the input list (`(i + 30) / 30` in `Nat` division is that ceiling). -/
def specCandidateB64 (cfg : List PAtom) (j : Int) (i : Nat) : List Char :=
  base64Encode (chBytes (dumpsList
    ((cfg.set 3 (PAtom.pint i)).set 9
      (PAtom.pint (j + (((i + 30) / 30 : Nat) : Int))))))

/-! ## Storyboard detection and formatting
(`SoraClient.is_storyboard_prompt` lines 783-802,
`SoraClient.format_storyboard_prompt` lines 804-843)

The two regexes `\[\d+(?:\.\d+)?s\]` and `\[(\d+(?:\.\d+)?)s\]\s*([^\[]+)`
are modelled by direct deterministic scanners.  For these patterns maximal
munch is exact: `\d+` cannot usefully give digits back (the following
literal `s`/`.` is not a digit), a failed `\.\d+` branch leaves the next
character a `.` so the empty branch fails too, and greedy `\s*[^\[]+` over
the run of non-`[` characters resolves to: the run minus its whitespace
head, or — when the run is all whitespace — just its last character
(`\s*` backtracks once so `[^\[]+` can match something). -/

/-- Parse `\d+(?:\.\d+)?` at the head of `l`: the matched characters and the
rest, or `none` when no digit starts `l`. -/
def matchNumAt (l : List Char) : Option (List Char × List Char) :=
  let ds := l.takeWhile Char.isDigit
  if ds.isEmpty then none
  else
    match l.drop ds.length with
    | '.' :: r2 =>
      let ds2 := r2.takeWhile Char.isDigit
      if ds2.isEmpty then some (ds, l.drop ds.length)
      else some (ds ++ '.' :: ds2, r2.drop ds2.length)
    | r1 => some (ds, r1)

/-- Match `\[\d+(?:\.\d+)?s\]` at the head of `l`: the duration text and
the rest after the `]`. -/
def matchTagAt (l : List Char) : Option (List Char × List Char) :=
  match l with
  | '[' :: r =>
    match matchNumAt r with
    | some (num, 's' :: ']' :: rest) => some (num, rest)
    | _ => none
  | _ => none

/-- Whether `re.findall(r'\[\d+(?:\.\d+)?s\]', prompt)` is nonempty: some
position of `l` starts a tag. -/
def hasTag : List Char → Bool
  | [] => false
  | c :: rest => (matchTagAt (c :: rest)).isSome || hasTag rest

/-- `SoraClient.is_storyboard_prompt` (sora_client.py lines 783-802). -/
def isStoryboardPrompt (s : String) : Bool :=
  if s == "" then false else hasTag s.data

/-- Match the shot pattern `\[(\d+(?:\.\d+)?)s\]\s*([^\[]+)` at the head of
`l`: `((duration, scene), rest)`.  `region` is the maximal run of non-`[`
characters after the tag; the scene group is `region` minus its whitespace
head, or the last character of an all-whitespace `region` (see the section
comment), and scanning resumes after the whole `region`. -/
def matchShotAt (l : List Char) :
    Option ((List Char × List Char) × List Char) :=
  match l with
  | '[' :: r =>
    match matchNumAt r with
    | some (num, 's' :: ']' :: rest) =>
      let region := rest.takeWhile fun c => c ≠ '['
      if region.isEmpty then none
      else
        let afterWs := region.dropWhile pyIsSpace
        let scene := if afterWs.isEmpty then [region.getLastD ' '] else afterWs
        some ((num, scene), rest.drop region.length)
    | _ => none
  | _ => none

/-- `re.findall` of the shot pattern: left-to-right scan, restarting one
character on from a failed position and after the match otherwise.  `fuel`
bounds the recursion; every step consumes at least one character, so
`fuel = l.length` (as `scanShots` passes) never runs out first. -/
def scanShotsGo : Nat → List Char → List (List Char × List Char)
  | 0, _ => []
  | _, [] => []
  | fuel + 1, c :: rest =>
    match matchShotAt (c :: rest) with
    | some (m, rest2) => m :: scanShotsGo fuel rest2
    | none => scanShotsGo fuel rest

/-- All shot matches of a prompt, in order. -/
def scanShots (l : List Char) : List (List Char × List Char) :=
  scanShotsGo l.length l

/-- One formatted shot block (sora_client.py line 834):
`f"Shot {idx}:\nduration: {duration}sec\nScene: {scene}"` with the scene
stripped (line 833). -/
def shotBlock (idx : Nat) (dur scene : List Char) : List Char :=
  "Shot ".data ++ (toString idx).data ++ ":\nduration: ".data ++ dur ++
  "sec\nScene: ".data ++ pyStrip scene

/-- The joined timeline: shot blocks numbered from 1, separated by blank
lines (sora_client.py lines 831-837). -/
def shotTimeline (ms : List (List Char × List Char)) : List Char :=
  sepJoin ('\n' :: '\n' :: []) (ms.enum.map fun ki =>
    shotBlock (ki.1 + 1) ki.2.1 ki.2.2)

/-- The instructions text of `format_storyboard_prompt` (lines 824-828):
`prompt[:prompt.find('[')].strip()` when the first `[` sits at a positive
index, else the empty string. -/
def codeInstructions (l : List Char) : List Char :=
  match l.findIdx? fun c => c = '[' with
  | some p => if 0 < p then pyStrip (l.take p) else []
  | none => []

/-- `SoraClient.format_storyboard_prompt` (sora_client.py lines 804-843). -/
def formatStoryboardPrompt (s : String) : String :=
  let l := s.data
  let ms := scanShots l
  if ms.isEmpty then s
  else
    let instr := codeInstructions l
    let timeline := shotTimeline ms
    if !instr.isEmpty then
      String.mk ("current timeline:\n".data ++ timeline ++
        "\n\ninstructions:\n".data ++ instr)
    else
      String.mk timeline

/-- What the video branch of `handle_generation` submits as the prompt
(generation_handler.py lines 343-366): the storyboard endpoint receives
`format_storyboard_prompt(prompt)` when `is_storyboard_prompt(prompt)`,
otherwise the plain endpoint receives the prompt; `some p` means the
storyboard endpoint got `p`. -/
def storyboardSubmittedPrompt (prompt : String) : Option String :=
  if isStoryboardPrompt prompt then some (formatStoryboardPrompt prompt)
  else none

/-- Modelled from the claim's words (C7): the index of the first position
where a duration tag `[N(.M)?s]` starts. -/
def firstTagIdx : List Char → Option Nat
  | [] => none
  | c :: rest =>
    if (matchTagAt (c :: rest)).isSome then some 0
    else (firstTagIdx rest).map (· + 1)

/-- Modelled from the claim's words (C7): the instructions preamble is the
stripped text preceding the first duration tag. -/
def specInstructions (l : List Char) : List Char :=
  match firstTagIdx l with
  | some p => if 0 < p then pyStrip (l.take p) else []
  | none => []

/-- Modelled from the claim's words (C7): render the tagged segments, in
order, as `Shot i:` blocks joined by blank lines, an `instructions:`
preamble appended when nonempty. -/
def specStoryboardRender (ms : List (List Char × List Char))
    (instr : List Char) : List Char :=
  if !instr.isEmpty then
    "current timeline:\n".data ++ shotTimeline ms ++
    "\n\ninstructions:\n".data ++ instr
  else
    shotTimeline ms

/-! ## The remix prompt cleaner
(`GenerationHandler._clean_remix_link_from_prompt`,
generation_handler.py lines 140-167) -/

/-- A lowercase hex digit, the class `[a-f0-9]` of both removal patterns. -/
def isHexLower (c : Char) : Bool := c.isDigit || ('a' ≤ c && c ≤ 'f')

/-- Match `s_[a-f0-9]{32}` at the head of `l`: the matched length (34). -/
def idMatchAt (l : List Char) : Option Nat :=
  match l with
  | 's' :: '_' :: rest =>
    if 32 ≤ rest.length && (rest.take 32).all isHexLower then some 34 else none
  | _ => none

/-- The literal head of the full-URL pattern
`https://sora\.chatgpt\.com/p/s_[a-f0-9]{32}`. -/
def urlLit : List Char := "https://sora.chatgpt.com/p/".data

/-- Match the full-URL pattern at the head of `l`: the matched length. -/
def urlMatchAt (l : List Char) : Option Nat :=
  if urlLit.isPrefixOf l && (idMatchAt (l.drop urlLit.length)).isSome then
    some (urlLit.length + 34)
  else none

/-- `re.sub(pattern, '', s)`: scan left to right, skip a match's characters
when the matcher fires and keep one character otherwise.  Each step consumes
at least one character (both matchers return lengths at least 34), so
`fuel = l.length` (as `subAll` passes) never runs out first. -/
def subAllGo (m : List Char → Option Nat) : Nat → List Char → List Char
  | 0, l => l
  | _, [] => []
  | fuel + 1, c :: rest =>
    match m (c :: rest) with
    | some n => subAllGo m fuel ((c :: rest).drop n)
    | none => c :: subAllGo m fuel rest

/-- Remove every non-overlapping match of `m` from `l`. -/
def subAll (m : List Char → Option Nat) (l : List Char) : List Char :=
  subAllGo m l.length l

/-- Whether some suffix of `l` starts a match of `m` (the pattern occurs). -/
def hasOccur (m : List Char → Option Nat) (l : List Char) : Bool :=
  l.tails.any fun t => (m t).isSome

/-- Python `' '.join(s.split())`: whitespace normalization
(generation_handler.py line 163). -/
def normWs (l : List Char) : List Char := sepJoin [' '] (pySplitWs l)

/-- `GenerationHandler._clean_remix_link_from_prompt`
(generation_handler.py lines 140-167): remove full share URLs, then bare
share ids, then normalize whitespace; the empty prompt is returned as is. -/
def cleanRemixLink (s : String) : String :=
  if s == "" then s
  else String.mk (normWs (subAll idMatchAt (subAll urlMatchAt s.data)))

/-! ## Character username derivation
(`GenerationHandler._process_character_username`,
generation_handler.py lines 110-138) -/

/-- Python `str.split(".")`: split at every dot, keeping empty pieces. -/
def splitDot : List Char → List (List Char)
  | [] => [[]]
  | c :: rest =>
    let r := splitDot rest
    if c = '.' then [] :: r
    else (c :: r.headD []) :: r.tail

/-- `GenerationHandler._process_character_username`: the part of the hint
after its final dot (the whole hint when it has none), with the drawn
three-digit number `d` appended as text.  The draw
`random.randint(100, 999)` is modelled by the parameter `d`. -/
def processCharacterUsername (hint : String) (d : Nat) : String :=
  let base :=
    if hint.data.contains '.' then (splitDot hint.data).getLastD []
    else hint.data
  String.mk (base ++ (toString d).data)

/-- Modelled from the claim's words (C9): the substring of the hint after
its final `.`, the whole hint when no `.` is present. -/
def specLastSegment (hint : String) : List Char :=
  (hint.data.reverse.takeWhile fun c => c ≠ '.').reverse

/-- The word class `[A-Za-z0-9_]` of the claimed username regex. -/
def isWordChar (c : Char) : Bool := c.isAlpha || c.isDigit || c = '_'

/-- Modelled from the claim's words (C9): acceptance by
`^[A-Za-z0-9_]+\d{3}$` — at least four characters, everything before the
last three a nonempty run of word characters, the last three decimal
digits. -/
def userRegexAccepts (s : String) : Bool :=
  let l := s.data
  4 ≤ l.length && (l.take (l.length - 3)).all isWordChar &&
    (l.drop (l.length - 3)).all Char.isDigit

/-! ## Concrete instances and count helpers used by the theorems below -/

/-- The release count the amended claim C1 predicts from the body outcome,
given the acquisition count of the same resource. -/
def expectedRel (outcome : BodyOutcome) (acq : Nat) : Nat :=
  match outcome with
  | BodyOutcome.success => acq
  | BodyOutcome.bodyError _ => acq
  | BodyOutcome.pollTimeout => 2 * acq
  | BodyOutcome.cancelled => 0

/-- The `record_error` count the amended claim C2 predicts from the body
outcome. -/
def expectedErrCount (outcome : BodyOutcome) : Nat :=
  match outcome with
  | BodyOutcome.success => 0
  | BodyOutcome.cancelled => 0
  | BodyOutcome.pollTimeout => 1
  | BodyOutcome.bodyError _ => 1

/-- Whether a `generate_video` event is a `/nf/create` call. -/
def isNfCreate : GVEvent → Bool
  | GVEvent.nfCreate _ => true
  | _ => false

/-- A concrete 18-slot fingerprint config list (shape of
`SoraClient._get_pow_config`, sora_client.py lines 429-453), with the
integer 5 at slot 9. -/
def cfgW : List PAtom :=
  [PAtom.pint 1266, PAtom.pother "\"timestr\"".data, PAtom.pint 4294967296,
   PAtom.pint 0, PAtom.pother "\"UA\"".data, PAtom.pother "\"script\"".data,
   PAtom.pother "null".data, PAtom.pother "\"zh-CN\"".data,
   PAtom.pother "\"zh-CN,zh\"".data, PAtom.pint 5,
   PAtom.pother "\"nav\"".data, PAtom.pother "\"doc\"".data,
   PAtom.pother "\"win\"".data, PAtom.pother "12345.6".data,
   PAtom.pother "\"uuid\"".data, PAtom.pother "\"\"".data, PAtom.pint 8,
   PAtom.pother "999.5".data]

/-- The precomputed parts of `cfgW`. -/
def cfgWParts : PowParts :=
  (powParts cfgW).getD { part1 := [], part2 := [], part3 := [], initJ := 0 }

/-- A digest function that always returns 64 zero bytes: every candidate
passes against a nonzero target. -/
def sha3zero : List Nat → List Nat := fun _ => List.replicate 64 0

/-- A digest function that always returns 64 `0xff` bytes: no candidate
passes against a zero target. -/
def sha3max : List Nat → List Nat := fun _ => List.replicate 64 255

/-- The solution `_solve_pow` finds for `sha3zero`, seed `"a"`,
difficulty `"ff"` and `cfgW` (it succeeds at iteration 0). -/
def powSolW : String := ((solvePow sha3zero "a" "ff" cfgW).getD ("", false)).1

/-- A `generate_video` environment where the sentinel fetch raises 429
(as `_fetch_oai_did` does on a 429 response, sora_client.py lines 142-143,
re-raised through lines 1088-1099). -/
def envC2 : GVEnv :=
  { cachedFetch :=
      Except.error "429 Too Many Requests - Rate limited when fetching oai-did",
    manualInit := Except.error "unused",
    firstCreate := Except.error "unused",
    refreshFetch := Except.error "unused",
    manualRetry := Except.error "unused",
    secondCreate := Except.error "unused" }

/-- A `generate_video` environment where the first `/nf/create` fails with
a sentinel 400 and the forced refresh then raises 429. -/
def envC4x : GVEnv :=
  { cachedFetch := Except.ok (some "tokA"),
    manualInit := Except.error "unused",
    firstCreate := Except.error "HTTP Error: 400 sentinel token invalid",
    refreshFetch := Except.error "429 Too Many Requests",
    manualRetry := Except.error "unused",
    secondCreate := Except.error "unused" }

/-- A `generate_video` environment exercising the full recovery: sentinel
400 on the first `/nf/create`, successful refresh, successful retry. -/
def envC4w : GVEnv :=
  { cachedFetch := Except.ok (some "tokA"),
    manualInit := Except.error "unused",
    firstCreate := Except.error "HTTP Error: 400 sentinel token invalid",
    refreshFetch := Except.ok (some "tokB"),
    manualRetry := Except.error "unused",
    secondCreate := Except.ok "task_2" }

/-- A prompt with two overlapping share-id candidates: removing the inner
`s_` + 32 hex id leaves behind a fresh `s_` + 32 hex id. -/
def overlapPrompt : String := "s_s_" ++ String.mk (List.replicate 64 'a')

/-! ## Helper lemmas -/

theorem lookup_mem_pairs {l : List (String × ModelCfg)} {m : String}
    {cfg : ModelCfg} (h : l.lookup m = some cfg) : (m, cfg) ∈ l := by
  induction l with
  | nil => simp [List.lookup] at h
  | cons kv rest ih =>
    obtain ⟨k, v⟩ := kv
    cases hk : m == k with
    | true =>
      have hmk : m = k := eq_of_beq hk
      simp only [List.lookup, hk] at h
      subst hmk
      obtain rfl := Option.some.inj h
      exact List.mem_cons_self _ _
    | false =>
      simp only [List.lookup, hk] at h
      exact List.mem_cons_of_mem _ (ih h)

theorem lookup_isSome_keys {l : List (String × ModelCfg)} {m : String} :
    (l.lookup m).isSome = true ↔ m ∈ l.map Prod.fst := by
  induction l with
  | nil => simp [List.lookup]
  | cons kv rest ih =>
    obtain ⟨k, v⟩ := kv
    rw [List.lookup]
    by_cases hk : m = k
    · subst hk
      simp
    · have : (m == k) = false := beq_false_of_ne hk
      simp [this, ih, hk]

/-- Claim C10 (confirmed): there is a prompt — "[5s]", whose duration tag is
followed by no scene text — that `is_storyboard_prompt` classifies as a
storyboard while `format_storyboard_prompt` returns it unchanged, so the
video branch submits the raw prompt to the storyboard endpoint. -/
theorem C10_tag_without_scene :
    isStoryboardPrompt "[5s]" = true ∧
    formatStoryboardPrompt "[5s]" = "[5s]" ∧
    storyboardSubmittedPrompt "[5s]" = some "[5s]" := by
  refine ⟨rfl, rfl, rfl⟩

/-- Claim C6 (confirmed): `handle_generation` accepts exactly the nine model
names of the closed set and raises invalid-model for every other name; the
six accepted video models map `-10s` to `n_frames = 300` and `-15s` to
`n_frames = 450`, and `sora-video-portrait-10s` submits orientation
`"portrait"` with `n_frames = 300` in the `/nf/create` body. -/
theorem C6_model_table :
    (∀ m : String, (modelConfigLookup m).isSome = true ↔ m ∈ acceptedModelNames)
    ∧ (∀ (m : String) (stream ta lo so cm : Bool) (oc : BodyOutcome),
        modelConfigLookup m = none →
        (handleGen m stream ta lo so cm oc).2 = some (HandlerErr.invalidModel m))
    ∧ ((modelConfigLookup "sora-video-10s").map ModelCfg.nFrames
        = some (some 300)
      ∧ (modelConfigLookup "sora-video-landscape-10s").map ModelCfg.nFrames
        = some (some 300)
      ∧ (modelConfigLookup "sora-video-portrait-10s").map ModelCfg.nFrames
        = some (some 300)
      ∧ (modelConfigLookup "sora-video-15s").map ModelCfg.nFrames
        = some (some 450)
      ∧ (modelConfigLookup "sora-video-landscape-15s").map ModelCfg.nFrames
        = some (some 450)
      ∧ (modelConfigLookup "sora-video-portrait-15s").map ModelCfg.nFrames
        = some (some 450))
    ∧ (submittedVideoPayload "sora-video-portrait-10s" "a cat jumps").map
        (fun pl => (pl.orientation, pl.nFrames))
      = some ("portrait", 300) := by
  refine ⟨?_, ?_, ?_, ?_⟩
  · intro m
    have hkeys : MODEL_CONFIG.map Prod.fst = acceptedModelNames := rfl
    rw [modelConfigLookup, lookup_isSome_keys, hkeys]
  · intro m stream ta lo so cm oc h
    unfold handleGen
    rw [h]
  · refine ⟨rfl, rfl, rfl, rfl, rfl, rfl⟩
  · rfl

/-- The handler's event trace does not depend on the text of a caught
body exception. -/
theorem handleGen_fst_bodyError (m : String) (s ta lo so cm : Bool)
    (msg : String) :
    (handleGen m s ta lo so cm (BodyOutcome.bodyError msg)).1
    = (handleGen m s ta lo so cm (BodyOutcome.bodyError "")).1 := by
  unfold handleGen
  cases modelConfigLookup m
  · rfl
  · dsimp only
    split_ifs <;> rfl

/-- Claim C1, counterexample: on the poll-loop-timeout exit of an image
request the token lock and the image concurrency slot are each acquired
once but released twice (once inside `_poll_task_result`, once again by
`handle_generation`'s `except` clause), and on stream cancellation the
acquired lock is never released. -/
theorem C1_release_counterexample :
    ((handleGen "sora-image" true true true true true
        BodyOutcome.pollTimeout).1.count HEvent.acqLock = 1
      ∧ (handleGen "sora-image" true true true true true
          BodyOutcome.pollTimeout).1.count HEvent.relLock = 2
      ∧ (handleGen "sora-image" true true true true true
          BodyOutcome.pollTimeout).1.count HEvent.acqImgSlot = 1
      ∧ (handleGen "sora-image" true true true true true
          BodyOutcome.pollTimeout).1.count HEvent.relImgSlot = 2)
    ∧ ((handleGen "sora-image" true true true true true
          BodyOutcome.cancelled).1.count HEvent.acqLock = 1
      ∧ (handleGen "sora-image" true true true true true
          BodyOutcome.cancelled).1.count HEvent.relLock = 0) := by
  decide

/-- Claim C1, amended: for every accepted model (streaming, token selected,
lock and slot acquisition succeeding), each acquired lock and slot is
released exactly once when the body completes or raises an ordinary
exception, exactly twice on the poll-loop timeout, and not at all on
cancellation; nothing is acquired more than once. -/
theorem C1_release_discipline :
    ∀ (m : String) (cfg : ModelCfg), modelConfigLookup m = some cfg →
    ∀ (hasCM : Bool) (outcome : BodyOutcome),
    ((handleGen m true true true true hasCM outcome).1.count HEvent.relLock
      = expectedRel outcome
        ((handleGen m true true true true hasCM outcome).1.count HEvent.acqLock))
    ∧ ((handleGen m true true true true hasCM outcome).1.count HEvent.relImgSlot
      = expectedRel outcome
        ((handleGen m true true true true hasCM outcome).1.count
          HEvent.acqImgSlot))
    ∧ ((handleGen m true true true true hasCM outcome).1.count HEvent.relVidSlot
      = expectedRel outcome
        ((handleGen m true true true true hasCM outcome).1.count
          HEvent.acqVidSlot))
    ∧ (handleGen m true true true true hasCM outcome).1.count HEvent.acqLock ≤ 1
    ∧ (handleGen m true true true true hasCM outcome).1.count HEvent.acqImgSlot
        ≤ 1
    ∧ (handleGen m true true true true hasCM outcome).1.count HEvent.acqVidSlot
        ≤ 1 := by
  intro m cfg h hasCM outcome
  have hm : (m, cfg) ∈ MODEL_CONFIG := lookup_mem_pairs h
  simp only [List.mem_cons, MODEL_CONFIG, List.not_mem_nil, or_false,
    Prod.mk.injEq] at hm
  rcases hm with h9 | h9 | h9 | h9 | h9 | h9 | h9 | h9 | h9 <;>
    obtain ⟨rfl, rfl⟩ := h9 <;>
    cases hasCM <;> cases outcome <;>
    first
      | decide
      | (simp only [handleGen_fst_bodyError, expectedRel]; decide)

/-- Claim C1, witness: the amended discipline at the model `sora-image`
with a concurrency manager and a normally completing body. -/
theorem C1_release_discipline_witness :
    ((handleGen "sora-image" true true true true true
        BodyOutcome.success).1.count HEvent.relLock
      = expectedRel BodyOutcome.success
        ((handleGen "sora-image" true true true true true
          BodyOutcome.success).1.count HEvent.acqLock))
    ∧ ((handleGen "sora-image" true true true true true
        BodyOutcome.success).1.count HEvent.relImgSlot
      = expectedRel BodyOutcome.success
        ((handleGen "sora-image" true true true true true
          BodyOutcome.success).1.count HEvent.acqImgSlot))
    ∧ ((handleGen "sora-image" true true true true true
        BodyOutcome.success).1.count HEvent.relVidSlot
      = expectedRel BodyOutcome.success
        ((handleGen "sora-image" true true true true true
          BodyOutcome.success).1.count HEvent.acqVidSlot))
    ∧ (handleGen "sora-image" true true true true true
        BodyOutcome.success).1.count HEvent.acqLock ≤ 1
    ∧ (handleGen "sora-image" true true true true true
        BodyOutcome.success).1.count HEvent.acqImgSlot ≤ 1
    ∧ (handleGen "sora-image" true true true true true
        BodyOutcome.success).1.count HEvent.acqVidSlot ≤ 1 :=
  C1_release_discipline "sora-image"
    { mtype := "image", width := some 360, height := some 360,
      orientation := none, nFrames := none } rfl true BodyOutcome.success

/-- Claim C2, counterexample: a 429 raised while acquiring the sentinel
token propagates out of `generate_video` (re-raised at sora_client.py lines
1092-1099) into `handle_generation`'s `except` clause, which calls
`token_manager.record_error` unconditionally — so an `upstream_unavailable`
429 does increment the selected token's error counter, contrary to the
claim. -/
theorem C2_429_increments_counterexample :
    generateVideoFlow envC2
      = ([GVEvent.fetchCached false],
         Except.error "429 Too Many Requests - Rate limited when fetching oai-did")
    ∧ (handleGen "sora-video-portrait-10s" true true true true true
        (BodyOutcome.bodyError
          "429 Too Many Requests - Rate limited when fetching oai-did")).1.count
        HEvent.recordError = 1 := by
  refine ⟨rfl, rfl⟩

/-- Claim C2, amended: every exception the handler catches increments the
selected token's error counter, with no exemption for 403/429; the kinds
that do not increment it are exactly those that never reach the `except`
clause — cancellation (`CancelledError` is not an `Exception`), and the
invalid-model, no-eligible-token, lock-failure and slot-failure raises that
happen before the `try` block. -/
theorem C2_error_counter :
    ∀ (m : String) (cfg : ModelCfg), modelConfigLookup m = some cfg →
    ∀ (hasCM : Bool) (outcome : BodyOutcome) (ta lo so : Bool),
    ((handleGen m true true true true hasCM outcome).1.count HEvent.recordError
      = expectedErrCount outcome)
    ∧ (ta = false →
        (handleGen m true ta lo so hasCM outcome).1.count HEvent.recordError
          = 0)
    ∧ (cfg.mtype = "image" → lo = false →
        (handleGen m true ta lo so hasCM outcome).1.count HEvent.recordError
          = 0)
    ∧ (hasCM = true → so = false →
        (handleGen m true ta lo so hasCM outcome).1.count HEvent.recordError
          = 0) := by
  intro m cfg h hasCM outcome ta lo so
  have hm : (m, cfg) ∈ MODEL_CONFIG := lookup_mem_pairs h
  simp only [List.mem_cons, MODEL_CONFIG, List.not_mem_nil, or_false,
    Prod.mk.injEq] at hm
  rcases hm with h9 | h9 | h9 | h9 | h9 | h9 | h9 | h9 | h9 <;>
    obtain ⟨rfl, rfl⟩ := h9 <;>
    cases hasCM <;> cases outcome <;> cases ta <;> cases lo <;> cases so <;>
    first
      | decide
      | (simp only [handleGen_fst_bodyError, expectedErrCount]; decide)

/-- Claim C2, witness: the amended statement at `sora-image` with a body
failure and the no-eligible-token flag. -/
theorem C2_error_counter_witness :
    ((handleGen "sora-image" true true true true true
        (BodyOutcome.bodyError "boom")).1.count HEvent.recordError
      = expectedErrCount (BodyOutcome.bodyError "boom"))
    ∧ (false = false →
        (handleGen "sora-image" true false true true true
          (BodyOutcome.bodyError "boom")).1.count HEvent.recordError = 0)
    ∧ (ModelCfg.mtype
        { mtype := "image", width := some 360, height := some 360,
          orientation := none, nFrames := none } = "image" → true = false →
        (handleGen "sora-image" true false true true true
          (BodyOutcome.bodyError "boom")).1.count HEvent.recordError = 0)
    ∧ (true = true → true = false →
        (handleGen "sora-image" true false true true true
          (BodyOutcome.bodyError "boom")).1.count HEvent.recordError = 0) :=
  C2_error_counter "sora-image"
    { mtype := "image", width := some 360, height := some 360,
      orientation := none, nFrames := none } rfl true
    (BodyOutcome.bodyError "boom") false true true

/-- Claim C4, counterexample: when the first `/nf/create` fails with a
sentinel 400 but the forced refresh itself raises 429, `generate_video`
re-raises the 429 (sora_client.py lines 1122-1127) without a second
`/nf/create` call — only one `/nf/create` call occurs, not the two the
claim asserts. -/
theorem C4_retry_counterexample :
    generateVideoFlow envC4x
      = ([GVEvent.fetchCached false, GVEvent.nfCreate "tokA",
          GVEvent.invalidateCache, GVEvent.fetchCached true],
         Except.error "429 Too Many Requests")
    ∧ err400Match "HTTP Error: 400 sentinel token invalid" = true
    ∧ (generateVideoFlow envC4x).1.countP isNfCreate = 1 := by
  refine ⟨rfl, rfl, rfl⟩

/-- Claim C4, amended: with a cached sentinel token in hand, a first
`/nf/create` failure matching `400|sentinel|invalid` makes the client
invalidate the cache and refresh once; when the refresh (or, after a
swallowed refresh failure, the manual fallback) yields a token, `/nf/create`
is retried exactly once with that fresh token — exactly two `/nf/create`
calls — and the second attempt's result propagates either way; when the
refresh raises 403/429 or the manual fallback raises, that exception
propagates after a single `/nf/create` call; a first failure not matching
the class is re-raised with no retry and no invalidation. -/
theorem C4_sentinel_retry :
    ∀ (env : GVEnv) (t e1 : String),
    env.cachedFetch = Except.ok (some t) →
    ((∀ id1, env.firstCreate = Except.ok id1 →
        generateVideoFlow env
          = ([GVEvent.fetchCached false, GVEvent.nfCreate t], Except.ok id1))
    ∧ (env.firstCreate = Except.error e1 → err400Match e1 = false →
        generateVideoFlow env
          = ([GVEvent.fetchCached false, GVEvent.nfCreate t],
             Except.error e1))
    ∧ (env.firstCreate = Except.error e1 → err400Match e1 = true →
        ((∀ t2, env.refreshFetch = Except.ok (some t2) →
            generateVideoFlow env
              = ([GVEvent.fetchCached false, GVEvent.nfCreate t,
                  GVEvent.invalidateCache, GVEvent.fetchCached true,
                  GVEvent.nfCreate t2], env.secondCreate))
        ∧ (∀ re, env.refreshFetch = Except.error re → err403or429 re = true →
            generateVideoFlow env
              = ([GVEvent.fetchCached false, GVEvent.nfCreate t,
                  GVEvent.invalidateCache, GVEvent.fetchCached true],
                 Except.error re))
        ∧ (∀ t2, env.refreshFetch = Except.ok none →
            env.manualRetry = Except.ok t2 →
            generateVideoFlow env
              = ([GVEvent.fetchCached false, GVEvent.nfCreate t,
                  GVEvent.invalidateCache, GVEvent.fetchCached true,
                  GVEvent.manualGen, GVEvent.nfCreate t2], env.secondCreate))
        ∧ (∀ rm, env.refreshFetch = Except.ok none →
            env.manualRetry = Except.error rm →
            generateVideoFlow env
              = ([GVEvent.fetchCached false, GVEvent.nfCreate t,
                  GVEvent.invalidateCache, GVEvent.fetchCached true,
                  GVEvent.manualGen], Except.error rm))))) := by
  intro env t e1 hc
  refine ⟨?_, ?_, ?_⟩
  · intro id1 h1
    simp [generateVideoFlow, gvResolveTok, hc, h1]
  · intro h1 hno
    simp [generateVideoFlow, gvResolveTok, hc, h1, hno]
  · intro h1 hyes
    refine ⟨?_, ?_, ?_, ?_⟩
    · intro t2 hr
      simp [generateVideoFlow, gvResolveTok, hc, h1, hyes, hr]
    · intro re hr h429
      simp [generateVideoFlow, gvResolveTok, hc, h1, hyes, hr, h429]
    · intro t2 hr hm
      simp [generateVideoFlow, gvResolveTok, hc, h1, hyes, hr, hm]
    · intro rm hr hm
      simp [generateVideoFlow, gvResolveTok, hc, h1, hyes, hr, hm]

/-- Claim C4, witness: the full recovery at the concrete environment
`envC4w` — sentinel 400 on the first call, successful refresh, second call
returning the task id. -/
theorem C4_sentinel_retry_witness :
    generateVideoFlow envC4w
      = ([GVEvent.fetchCached false, GVEvent.nfCreate "tokA",
          GVEvent.invalidateCache, GVEvent.fetchCached true,
          GVEvent.nfCreate "tokB"], envC4w.secondCreate) :=
  ((C4_sentinel_retry envC4w "tokA" "HTTP Error: 400 sentinel token invalid"
      rfl).2.2 rfl rfl).1 "tokB" rfl

/-- If the search loop reports success, the returned base64 text passes the
acceptance test. -/
theorem solvePowGo_success (sha3 : List Nat → List Nat) (seed : String)
    (seedB : List Nat) (diffLen : Nat) (target : List Nat) (p : PowParts) :
    ∀ (fuel i : Nat) (b : List Char),
    solvePowGo sha3 seed seedB diffLen target p i fuel = (b, true) →
    bytesLE ((sha3 (seedB ++ chBytes b)).take diffLen) target = true := by
  intro fuel
  induction fuel with
  | zero =>
    intro i b h
    simp [solvePowGo] at h
  | succ n ih =>
    intro i b h
    rw [solvePowGo] at h
    cases hc : powCheck sha3 seedB diffLen target p i with
    | true =>
      rw [hc, if_pos rfl] at h
      obtain ⟨rfl, -⟩ : powCandidateB64 p i = b ∧ True := by
        simpa [Prod.ext_iff] using h
      simpa [powCheck] using hc
    | false =>
      rw [hc] at h
      simp only [Bool.false_eq_true, if_false] at h
      exact ih _ _ h

/-- If no iteration in the remaining budget passes the acceptance test, the
search loop returns the deterministic error token with the failure flag. -/
theorem solvePowGo_exhaust (sha3 : List Nat → List Nat) (seed : String)
    (seedB : List Nat) (diffLen : Nat) (target : List Nat) (p : PowParts) :
    ∀ (fuel i : Nat),
    (∀ k, i ≤ k → k < i + fuel →
      powCheck sha3 seedB diffLen target p k = false) →
    solvePowGo sha3 seed seedB diffLen target p i fuel
      = (powErrToken seed, false) := by
  intro fuel
  induction fuel with
  | zero => intro i _; rfl
  | succ n ih =>
    intro i h
    rw [solvePowGo]
    have hc : powCheck sha3 seedB diffLen target p i = false :=
      h i le_rfl (by omega)
    rw [hc]
    simp only [Bool.false_eq_true, if_false]
    exact ih (i + 1) fun k hk1 hk2 => h k (by omega) (by omega)

/-- Claim C3 (confirmed): whenever `_solve_pow` returns with the success
flag, the SHA3-512 digest of the seed bytes followed by the returned base64
string has its first `len(difficulty)/2` bytes lexicographically at most
the hex-decoded difficulty; and when no candidate among the 500000
iterations passes, it returns the deterministic error token with the
success flag `False`. -/
theorem C3_solve_pow :
    (∀ (sha3 : List Nat → List Nat) (seed difficulty : String)
        (cfg : List PAtom) (target : List Nat) (s : String),
      hexDecode difficulty.data = some target →
      solvePow sha3 seed difficulty cfg = some (s, true) →
      bytesLE ((sha3 (strBytes seed ++ strBytes s)).take
        (difficulty.length / 2)) target = true)
    ∧ (∀ (sha3 : List Nat → List Nat) (seed difficulty : String)
        (cfg : List PAtom) (target : List Nat) (p : PowParts),
      hexDecode difficulty.data = some target →
      powParts cfg = some p →
      (∀ i, i < POW_MAX_ITERATION →
        powCheck sha3 (strBytes seed) (difficulty.length / 2) target p i
          = false) →
      solvePow sha3 seed difficulty cfg
        = some (String.mk (powErrToken seed), false)) := by
  constructor
  · intro sha3 seed difficulty cfg target s hhex hsolve
    unfold solvePow at hsolve
    rw [hhex] at hsolve
    cases hp : powParts cfg with
    | none => rw [hp] at hsolve; cases hsolve
    | some p =>
      rw [hp] at hsolve
      have h1 :
          String.mk (solvePowGo sha3 seed (strBytes seed)
            (difficulty.length / 2) target p 0 POW_MAX_ITERATION).1 = s
          ∧ (solvePowGo sha3 seed (strBytes seed) (difficulty.length / 2)
              target p 0 POW_MAX_ITERATION).2 = true := by
        have := Option.some.inj hsolve
        exact ⟨congrArg Prod.fst this, congrArg Prod.snd this⟩
      have hrun : solvePowGo sha3 seed (strBytes seed)
          (difficulty.length / 2) target p 0 POW_MAX_ITERATION
          = ((solvePowGo sha3 seed (strBytes seed) (difficulty.length / 2)
              target p 0 POW_MAX_ITERATION).1, true) := by
        rw [← h1.2]
      have hle := solvePowGo_success sha3 seed (strBytes seed)
        (difficulty.length / 2) target p POW_MAX_ITERATION 0 _ hrun
      rw [← h1.1]
      exact hle
  · intro sha3 seed difficulty cfg target p hhex hp hnone
    unfold solvePow
    rw [hhex, hp]
    dsimp only
    rw [solvePowGo_exhaust sha3 seed (strBytes seed) (difficulty.length / 2)
      target p POW_MAX_ITERATION 0 fun k _ hk2 => hnone k (by simpa using hk2)]

/-- Claim C3, witness: a digest function of all-zero bytes accepts at
iteration 0 against difficulty `"ff"` (and the found solution passes the
test), while a digest function of all-`0xff` bytes never passes against
difficulty `"00"` and yields the error token. -/
theorem C3_solve_pow_witness :
    bytesLE ((sha3zero (strBytes "a" ++ strBytes powSolW)).take
      ("ff".length / 2)) [255] = true
    ∧ solvePow sha3max "b" "00" cfgW
        = some (String.mk (powErrToken "b"), false) := by
  constructor
  · exact C3_solve_pow.1 sha3zero "a" "ff" cfgW [255] powSolW rfl rfl
  · exact C3_solve_pow.2 sha3max "b" "00" cfgW [0] cfgWParts rfl rfl
      fun i _ => rfl

/-- Claim C5, counterexample: at iteration 0 (with a config whose slot 9
holds 5) the candidate the code hashes differs from the claim's formula —
the code adds `(i + 29) // 30 = 0` to `initial_j` at `i = 0`, the claim's
`ceil((i + 1) / 30) = 1`. -/
theorem C5_candidate_counterexample :
    powParts cfgW = some cfgWParts
    ∧ cfgW.get? 9 = some (PAtom.pint 5)
    ∧ powCandidateB64 cfgWParts 0 ≠ specCandidateB64 cfgW 5 0 := by
  refine ⟨rfl, rfl, by decide⟩

/-- Claim C5, amended: at every iteration `i` the hashed candidate is the
base64 encoding of the JSON serialization of the 18-slot config array with
slot 3 replaced by `i` and slot 9 replaced by
`initial_j + ceil(i / 30)` — that is, `initial_j + (i + 29) // 30` — where
`initial_j` is the integer at slot 9 of the input list. -/
theorem C5_candidate_shape :
    ∀ (cfg : List PAtom) (p : PowParts) (i : Nat),
    cfg.length = 18 → powParts cfg = some p →
    powCandidateB64 p i
      = base64Encode (chBytes (dumpsList
          ((cfg.set 3 (PAtom.pint i)).set 9
            (PAtom.pint (p.initJ + (((i + 29) / 30 : Nat) : Int)))))) := by
  intro cfg p i hlen hp
  rcases cfg with _ | ⟨a0, cfg⟩; · simp at hlen
  rcases cfg with _ | ⟨a1, cfg⟩; · simp at hlen
  rcases cfg with _ | ⟨a2, cfg⟩; · simp at hlen
  rcases cfg with _ | ⟨a3, cfg⟩; · simp at hlen
  rcases cfg with _ | ⟨a4, cfg⟩; · simp at hlen
  rcases cfg with _ | ⟨a5, cfg⟩; · simp at hlen
  rcases cfg with _ | ⟨a6, cfg⟩; · simp at hlen
  rcases cfg with _ | ⟨a7, cfg⟩; · simp at hlen
  rcases cfg with _ | ⟨a8, cfg⟩; · simp at hlen
  rcases cfg with _ | ⟨a9, cfg⟩; · simp at hlen
  rcases cfg with _ | ⟨a10, cfg⟩; · simp at hlen
  rcases cfg with _ | ⟨a11, cfg⟩; · simp at hlen
  rcases cfg with _ | ⟨a12, cfg⟩; · simp at hlen
  rcases cfg with _ | ⟨a13, cfg⟩; · simp at hlen
  rcases cfg with _ | ⟨a14, cfg⟩; · simp at hlen
  rcases cfg with _ | ⟨a15, cfg⟩; · simp at hlen
  rcases cfg with _ | ⟨a16, cfg⟩; · simp at hlen
  rcases cfg with _ | ⟨a17, cfg⟩; · simp at hlen
  have hnil : cfg = [] := by
    have h0 : cfg.length = 0 := by simpa using hlen
    exact List.length_eq_zero.mp h0
  subst hnil
  cases a9 with
  | pother s => simp [powParts, List.get?] at hp
  | pint j =>
    have hPdef : powParts [a0, a1, a2, a3, a4, a5, a6, a7, a8, PAtom.pint j,
        a10, a11, a12, a13, a14, a15, a16, a17] = some
        { part1 := (dumpsList [a0, a1, a2]).dropLast ++ [','],
          part2 := ',' :: (((dumpsList [a4, a5, a6, a7, a8]).drop 1).dropLast
            ++ [',']),
          part3 := ',' ::
            (dumpsList [a10, a11, a12, a13, a14, a15, a16, a17]).drop 1,
          initJ := j } := rfl
    rw [hPdef] at hp
    obtain rfl := Option.some.inj hp
    have e1 : (dumpsList [a0, a1, a2]).dropLast
        = '[' :: (dumpAtom a0 ++ [','] ++ (dumpAtom a1 ++ [','] ++
            dumpAtom a2)) := by
      show (('[' :: (dumpAtom a0 ++ [','] ++ (dumpAtom a1 ++ [','] ++
        dumpAtom a2))) ++ [']']).dropLast = _
      exact List.dropLast_concat
    have e2 : ((dumpsList [a4, a5, a6, a7, a8]).drop 1).dropLast
        = dumpAtom a4 ++ [','] ++ (dumpAtom a5 ++ [','] ++ (dumpAtom a6 ++
            [','] ++ (dumpAtom a7 ++ [','] ++ dumpAtom a8))) := by
      show ((dumpAtom a4 ++ [','] ++ (dumpAtom a5 ++ [','] ++ (dumpAtom a6 ++
        [','] ++ (dumpAtom a7 ++ [','] ++ dumpAtom a8)))) ++ [']']).dropLast
        = _
      exact List.dropLast_concat
    have hset : (([a0, a1, a2, a3, a4, a5, a6, a7, a8, PAtom.pint j,
        a10, a11, a12, a13, a14, a15, a16, a17].set 3 (PAtom.pint i)).set 9
          (PAtom.pint (j + (((i + 29) / 30 : Nat) : Int))))
        = [a0, a1, a2, PAtom.pint i, a4, a5, a6, a7, a8,
           PAtom.pint (j + (((i + 29) / 30 : Nat) : Int)),
           a10, a11, a12, a13, a14, a15, a16, a17] := rfl
    rw [powCandidateB64]
    rw [hset]
    congr 2
    dsimp only [powCandidate]
    rw [e1, e2]
    simp only [dumpsList, sepJoin, List.map, dumpAtom, List.append_assoc,
      List.cons_append, List.singleton_append, List.nil_append]
    rfl

/-- Claim C5, witness: the amended candidate shape at the concrete config
`cfgW` and iteration 7. -/
theorem C5_candidate_shape_witness :
    powCandidateB64 cfgWParts 7
      = base64Encode (chBytes (dumpsList
          ((cfgW.set 3 (PAtom.pint 7)).set 9
            (PAtom.pint (cfgWParts.initJ + (((7 + 29) / 30 : Nat) : Int)))))) :=
  C5_candidate_shape cfgW cfgWParts 7 rfl rfl

/-- Claim C7, counterexample: on `"a [b] [5s]x"` the code takes the
instructions preamble from the text before the first `[` character
(`"a"`), not before the first duration tag as the claim states
(`"a [b]"`), so the formatted output differs from the claim's rendering. -/
theorem C7_storyboard_counterexample :
    formatStoryboardPrompt "a [b] [5s]x"
      = "current timeline:\nShot 1:\nduration: 5sec\nScene: x\n\ninstructions:\na"
    ∧ String.mk (specStoryboardRender (scanShots "a [b] [5s]x".data)
        (specInstructions "a [b] [5s]x".data))
      = "current timeline:\nShot 1:\nduration: 5sec\nScene: x\n\ninstructions:\na [b]"
    ∧ formatStoryboardPrompt "a [b] [5s]x"
      ≠ String.mk (specStoryboardRender (scanShots "a [b] [5s]x".data)
          (specInstructions "a [b] [5s]x".data)) := by
  refine ⟨rfl, rfl, by decide⟩

/-- Claim C7, amended: for every prompt with at least one tagged segment,
`format_storyboard_prompt` renders the segments, in order, as
`Shot i:` / `duration: Nsec` / `Scene: <trimmed scene>` blocks joined by
blank lines, with the preamble taken from the (stripped) text preceding the
first `[` character; on the concrete storyboard prompt the output is
exactly the claimed string. -/
theorem C7_storyboard_format :
    (∀ p : String, scanShots p.data ≠ [] →
      formatStoryboardPrompt p
        = String.mk (specStoryboardRender (scanShots p.data)
            (codeInstructions p.data)))
    ∧ formatStoryboardPrompt "Cat movie\n[5.0s]jumps [3.0s]lands"
      = "current timeline:\nShot 1:\nduration: 5.0sec\nScene: jumps\n\nShot 2:\nduration: 3.0sec\nScene: lands\n\ninstructions:\nCat movie" := by
  constructor
  · intro p h
    have hne : (scanShots p.data).isEmpty = false := by
      cases hsc : scanShots p.data with
      | nil => exact absurd hsc h
      | cons x xs => rfl
    rw [formatStoryboardPrompt, specStoryboardRender]
    rw [hne]
    cases hins : (codeInstructions p.data).isEmpty <;> simp [hins]
  · rfl

/-- Claim C7, witness: the amended rendering at the concrete storyboard
prompt of the claim. -/
theorem C7_storyboard_format_witness :
    formatStoryboardPrompt "Cat movie\n[5.0s]jumps [3.0s]lands"
      = String.mk (specStoryboardRender
          (scanShots "Cat movie\n[5.0s]jumps [3.0s]lands".data)
          (codeInstructions "Cat movie\n[5.0s]jumps [3.0s]lands".data)) :=
  C7_storyboard_format.1 "Cat movie\n[5.0s]jumps [3.0s]lands" (by decide)

/-- When the pattern occurs nowhere in `l`, removal is the identity. -/
theorem subAllGo_of_not_occur (m : List Char → Option Nat) :
    ∀ (l : List Char) (fuel : Nat), hasOccur m l = false →
    subAllGo m fuel l = l := by
  intro l
  induction l with
  | nil => intro fuel _; cases fuel <;> rfl
  | cons c rest ih =>
    intro fuel h
    rw [hasOccur, List.tails_cons, List.any_cons, Bool.or_eq_false_iff] at h
    obtain ⟨hm, hrest⟩ := h
    have hmc : m (c :: rest) = none := by
      cases hmc : m (c :: rest) with
      | none => rfl
      | some n => rw [hmc] at hm; cases hm
    cases fuel with
    | zero => rfl
    | succ n =>
      rw [subAllGo, hmc]
      rw [ih n hrest]

/-- A full-URL match contains a bare share-id match, so a prompt with no
bare id has no full URL either. -/
theorem not_id_occur_imp_not_url (l : List Char)
    (hid : hasOccur idMatchAt l = false) : hasOccur urlMatchAt l = false := by
  by_contra hurl
  rw [Bool.not_eq_false, hasOccur, List.any_eq_true] at hurl
  obtain ⟨t, ht, hsome⟩ := hurl
  rw [urlMatchAt] at hsome
  by_cases hcond :
      (urlLit.isPrefixOf t && (idMatchAt (t.drop urlLit.length)).isSome) = true
  · have hidm : (idMatchAt (t.drop urlLit.length)).isSome = true :=
      (Bool.and_eq_true _ _ |>.mp hcond).2
    have hsub : t.drop urlLit.length <:+ l :=
      (List.drop_suffix _ t).trans ((List.mem_tails _ _).mp ht)
    have hocc : hasOccur idMatchAt l = true := by
      rw [hasOccur, List.any_eq_true]
      exact ⟨t.drop urlLit.length, (List.mem_tails _ _).mpr hsub, hidm⟩
    rw [hid] at hocc
    cases hocc
  · rw [if_neg hcond] at hsome
    cases hsome

/-- Every word `pySplitWs` produces is nonempty and whitespace-free. -/
theorem wordsAcc_words_ok :
    ∀ (l acc : List Char), acc.all (fun c => !pyIsSpace c) = true →
    ∀ w ∈ wordsAcc acc l, w ≠ [] ∧ w.all (fun c => !pyIsSpace c) = true := by
  intro l
  induction l with
  | nil =>
    intro acc hacc w hw
    rw [wordsAcc] at hw
    cases hae : acc.isEmpty with
    | true => rw [hae] at hw; simp at hw
    | false =>
      rw [hae] at hw
      simp only [if_false, Bool.false_eq_true, List.mem_singleton] at hw
      subst hw
      refine ⟨?_, by simpa using hacc⟩
      intro hrev
      have : acc = [] := by simpa using congrArg List.reverse hrev
      rw [this] at hae
      cases hae
  | cons c rest ih =>
    intro acc hacc w hw
    rw [wordsAcc] at hw
    cases hsp : pyIsSpace c with
    | true =>
      rw [hsp] at hw
      simp only [if_true] at hw
      cases hae : acc.isEmpty with
      | true =>
        rw [hae] at hw
        simp only [if_true] at hw
        exact ih [] rfl w hw
      | false =>
        rw [hae] at hw
        simp only [if_false, Bool.false_eq_true, List.mem_cons] at hw
        cases hw with
        | inl hw =>
          subst hw
          refine ⟨?_, by simpa using hacc⟩
          intro hrev
          have : acc = [] := by simpa using congrArg List.reverse hrev
          rw [this] at hae
          cases hae
        | inr hw => exact ih [] rfl w hw
    | false =>
      rw [hsp] at hw
      simp only [Bool.false_eq_true, if_false] at hw
      refine ih (c :: acc) ?_ w hw
      simp [hacc, hsp]

/-- Reading a whitespace-free word accumulates it onto `acc`. -/
theorem wordsAcc_word (w : List Char) :
    ∀ (acc r : List Char), w.all (fun c => !pyIsSpace c) = true →
    wordsAcc acc (w ++ r) = wordsAcc (w.reverse ++ acc) r := by
  induction w with
  | nil => intro acc r _; rfl
  | cons c w ih =>
    intro acc r hall
    rw [List.all_cons, Bool.and_eq_true] at hall
    have hsp : pyIsSpace c = false := by
      cases hcc : pyIsSpace c with
      | false => rfl
      | true => rw [hcc] at hall; rcases hall with ⟨h1, -⟩; cases h1
    show wordsAcc acc (c :: (w ++ r)) = _
    rw [wordsAcc, hsp]
    simp only [Bool.false_eq_true, if_false]
    rw [ih (c :: acc) r hall.2]
    rw [List.reverse_cons, List.append_assoc]
    rfl

/-- A nonempty accumulator at the end of input emits one word. -/
theorem wordsAcc_emit (acc : List Char) (h : acc ≠ []) :
    wordsAcc acc [] = [acc.reverse] := by
  rw [wordsAcc, if_neg]
  intro hh
  exact h (List.isEmpty_iff.mp hh)

/-- Splitting the space-joined words recovers them. -/
theorem split_sepJoin :
    ∀ ws : List (List Char),
    (∀ w ∈ ws, w ≠ [] ∧ w.all (fun c => !pyIsSpace c) = true) →
    pySplitWs (sepJoin [' '] ws) = ws := by
  intro ws
  induction ws with
  | nil => intro _; rfl
  | cons w ws ih =>
    intro h
    obtain ⟨hw, hall⟩ := h w (List.mem_cons_self _ _)
    cases ws with
    | nil =>
      show wordsAcc [] w = [w]
      have h1 := wordsAcc_word w [] [] hall
      rw [List.append_nil, List.append_nil] at h1
      rw [h1, wordsAcc_emit _ (by simpa using hw), List.reverse_reverse]
    | cons w2 ws2 =>
      show wordsAcc [] (w ++ [' '] ++ sepJoin [' '] (w2 :: ws2)) = _
      rw [List.append_assoc, wordsAcc_word w [] _ hall, List.append_nil]
      rw [show ([' '] ++ sepJoin [' '] (w2 :: ws2))
        = ' ' :: sepJoin [' '] (w2 :: ws2) from rfl]
      rw [wordsAcc, show pyIsSpace ' ' = true from rfl]
      simp only [if_true]
      rw [if_neg (fun hh => (by simpa using hw :
        w.reverse ≠ []) (List.isEmpty_iff.mp hh))]
      rw [List.reverse_reverse]
      congr 1
      exact ih fun w' hw' => h w' (List.mem_cons_of_mem _ hw')

/-- Whitespace normalization is idempotent. -/
theorem normWs_idem (l : List Char) : normWs (normWs l) = normWs l := by
  rw [normWs, normWs]
  rw [split_sepJoin (pySplitWs l) (wordsAcc_words_ok l [] rfl)]

/-- The cleaner on a nonempty prompt: remove URL matches, remove id
matches, normalize whitespace. -/
theorem cleanRemixLink_ne_empty (p : String) (hp : (p == "") = false) :
    cleanRemixLink p
      = String.mk (normWs (subAll idMatchAt (subAll urlMatchAt p.data))) := by
  rw [cleanRemixLink, hp]
  rfl

/-- Claim C8, counterexample: the cleaner is not idempotent.  On
`"s_s_" ++ 64 × 'a'` (no whitespace, no full URL) the single `re.sub` pass
removes the id starting at index 2 and thereby exposes a fresh
`s_` + 32-hex id assembled from the leftover prefix and suffix, which only
a second application removes. -/
theorem C8_idempotence_counterexample :
    cleanRemixLink overlapPrompt
      = "s_" ++ String.mk (List.replicate 32 'a')
    ∧ cleanRemixLink (cleanRemixLink overlapPrompt) = ""
    ∧ cleanRemixLink (cleanRemixLink overlapPrompt)
        ≠ cleanRemixLink overlapPrompt := by
  refine ⟨by decide, by decide, by decide⟩

/-- Claim C8, amended: the cleaner is idempotent on every prompt whose
cleaned form contains no bare `s_<32 hex>` id (overlapping ids as in the
counterexample are the only way a pass can leave one behind); and on every
prompt containing no share link — no full share URL and no bare id — it
returns the prompt with whitespace normalized and no other change. -/
theorem C8_cleaner :
    (∀ p : String, hasOccur idMatchAt (cleanRemixLink p).data = false →
      cleanRemixLink (cleanRemixLink p) = cleanRemixLink p)
    ∧ (∀ p : String, hasOccur idMatchAt p.data = false →
        hasOccur urlMatchAt p.data = false →
        cleanRemixLink p = String.mk (normWs p.data)) := by
  have hsub : ∀ (m : List Char → Option Nat) (l : List Char),
      hasOccur m l = false → subAll m l = l :=
    fun m l h => subAllGo_of_not_occur m l l.length h
  constructor
  · intro p hid
    by_cases hp0 : p = ""
    · subst hp0; rfl
    · have hq := cleanRemixLink_ne_empty p (beq_eq_false_iff_ne.mpr hp0)
      by_cases hq0 : cleanRemixLink p = ""
      · rw [hq0]; rfl
      · rw [cleanRemixLink_ne_empty (cleanRemixLink p)
          (beq_eq_false_iff_ne.mpr hq0)]
        rw [hsub _ _ (not_id_occur_imp_not_url _ hid), hsub _ _ hid]
        rw [hq]
        show String.mk (normWs (normWs
          (subAll idMatchAt (subAll urlMatchAt p.data)))) = _
        rw [normWs_idem]
  · intro p hid hurl
    by_cases hp0 : p = ""
    · subst hp0; rfl
    · rw [cleanRemixLink_ne_empty p (beq_eq_false_iff_ne.mpr hp0)]
      rw [hsub _ _ hurl, hsub _ _ hid]

/-- Claim C8, witness: the amended statement at the concrete prompt
`"  hello   world "` — one cleaning pass normalizes the whitespace, a
second changes nothing. -/
theorem C8_cleaner_witness :
    cleanRemixLink (cleanRemixLink "  hello   world ")
      = cleanRemixLink "  hello   world "
    ∧ cleanRemixLink "  hello   world "
        = String.mk (normWs "  hello   world ".data) :=
  ⟨C8_cleaner.1 "  hello   world " (by decide),
   C8_cleaner.2 "  hello   world " (by decide) (by decide)⟩

/-- `takeWhile` keeps a list all of whose elements pass. -/
theorem takeWhile_of_all (p : Char → Bool) :
    ∀ l : List Char, l.all p = true → l.takeWhile p = l := by
  intro l
  induction l with
  | nil => intro _; rfl
  | cons a l ih =>
    intro h
    rw [List.all_cons, Bool.and_eq_true] at h
    rw [List.takeWhile_cons, h.1]
    simp only [if_true]
    rw [ih h.2]

/-- `takeWhile` over an append: all of the first part, or stop inside it. -/
theorem takeWhile_append_or (p : Char → Bool) :
    ∀ A B : List Char, (A ++ B).takeWhile p
      = if A.all p = true then A ++ B.takeWhile p else A.takeWhile p := by
  intro A
  induction A with
  | nil => intro B; simp
  | cons a A ih =>
    intro B
    cases hpa : p a with
    | false =>
      simp [List.takeWhile_cons, hpa, List.all_cons]
    | true =>
      by_cases hA : A.all p = true
      · simp [List.takeWhile_cons, hpa, List.all_cons, hA, ih]
      · simp [List.takeWhile_cons, hpa, List.all_cons, hA, ih]

/-- A list with no dot passes the not-a-dot test everywhere. -/
theorem no_dot_all :
    ∀ l : List Char, l.contains '.' = false →
    l.all (fun c => c ≠ '.') = true := by
  intro l
  induction l with
  | nil => intro _; rfl
  | cons c rest ih =>
    intro h
    rw [show (c :: rest).contains '.' = ('.' == c || rest.contains '.')
      from rfl, Bool.or_eq_false_iff] at h
    rw [List.all_cons, Bool.and_eq_true]
    refine ⟨?_, ih h.2⟩
    have : ('.' : Char) ≠ c := by
      intro hh
      rw [hh] at h
      simp at h
    exact decide_eq_true (Ne.symm this)

/-- A list containing a dot fails the not-a-dot test somewhere. -/
theorem dot_not_all :
    ∀ l : List Char, l.contains '.' = true →
    l.all (fun c => c ≠ '.') = false := by
  intro l
  induction l with
  | nil => intro h; cases h
  | cons c rest ih =>
    intro h
    rw [show (c :: rest).contains '.' = ('.' == c || rest.contains '.')
      from rfl, Bool.or_eq_true] at h
    rw [List.all_cons]
    cases h with
    | inl h =>
      have : c = '.' := (eq_of_beq h).symm
      subst this
      simp
    | inr h =>
      rw [ih h]
      simp

/-- `str.split('.')` never yields the empty list. -/
theorem splitDot_ne_nil : ∀ l : List Char, splitDot l ≠ [] := by
  intro l
  cases l with
  | nil => simp [splitDot]
  | cons c rest =>
    by_cases hc : c = '.' <;> simp [splitDot, hc]

/-- Splitting a dot-free list yields the list itself. -/
theorem splitDot_no_dot :
    ∀ l : List Char, l.contains '.' = false → splitDot l = [l] := by
  intro l
  induction l with
  | nil => intro _; rfl
  | cons c rest ih =>
    intro h
    rw [show (c :: rest).contains '.' = ('.' == c || rest.contains '.')
      from rfl, Bool.or_eq_false_iff] at h
    have hc : ¬c = '.' := by
      intro hh
      rw [hh] at h
      simp at h
    rw [splitDot]
    simp only [if_neg hc]
    rw [ih h.2]
    rfl

/-- Splitting a list with a dot yields at least two pieces. -/
theorem splitDot_two :
    ∀ l : List Char, l.contains '.' = true →
    ∃ x y t, splitDot l = x :: y :: t := by
  intro l
  induction l with
  | nil => intro h; cases h
  | cons c rest ih =>
    intro h
    by_cases hc : c = '.'
    · subst hc
      cases hr : splitDot rest with
      | nil => exact absurd hr (splitDot_ne_nil rest)
      | cons y t =>
        refine ⟨[], y, t, ?_⟩
        rw [splitDot, if_pos rfl, hr]
    · rw [show (c :: rest).contains '.' = ('.' == c || rest.contains '.')
        from rfl, Bool.or_eq_true] at h
      have hrest : rest.contains '.' = true := by
        cases h with
        | inl h => exact absurd ((eq_of_beq h).symm) hc
        | inr h => exact h
      obtain ⟨x, y, t, hxy⟩ := ih hrest
      refine ⟨c :: x, y, t, ?_⟩
      rw [splitDot]
      simp only [if_neg hc]
      rw [hxy]
      rfl

/-- The last piece of `str.split('.')` is the suffix after the final dot. -/
theorem splitDot_getLast :
    ∀ l : List Char, (splitDot l).getLastD []
      = (l.reverse.takeWhile fun c => c ≠ '.').reverse := by
  intro l
  induction l with
  | nil => rfl
  | cons c rest ih =>
    by_cases hc : c = '.'
    · subst hc
      rw [splitDot]
      rw [if_pos (show ('.' : Char) = '.' from rfl)]
      rw [List.getLastD_cons, ih, List.reverse_cons, takeWhile_append_or]
      by_cases hA : rest.reverse.all (fun c => c ≠ '.') = true
      · rw [if_pos hA,
          show List.takeWhile (fun c => (c ≠ '.' : Bool)) ['.'] = [] from rfl,
          List.append_nil, takeWhile_of_all _ _ hA]
      · rw [if_neg hA]
    · rw [splitDot]
      simp only [if_neg hc]
      cases hd : rest.contains '.' with
      | false =>
        rw [splitDot_no_dot rest hd]
        show (c :: rest) = _
        rw [List.reverse_cons, takeWhile_append_or]
        have hA : rest.reverse.all (fun c => c ≠ '.') = true := by
          rw [List.all_reverse]
          exact no_dot_all rest hd
        rw [if_pos hA]
        rw [List.takeWhile_cons, if_pos (decide_eq_true hc)]
        simp
      | true =>
        obtain ⟨x, y, t, hxy⟩ := splitDot_two rest hd
        rw [hxy] at ih ⊢
        show ((c :: x) :: y :: t).getLastD [] = _
        rw [List.getLastD_cons]
        rw [List.getLastD_cons] at ih
        rw [List.reverse_cons, takeWhile_append_or]
        have hA : rest.reverse.all (fun c => c ≠ '.') = false := by
          rw [List.all_reverse]
          exact dot_not_all rest hd
        rw [hA]
        simp only [Bool.false_eq_true, if_false]
        rw [← ih]
        rw [List.getLastD_cons, List.getLastD_cons]

/-- The decimal text of every number in `[100, 999]` is three digit
characters. -/
theorem threeDigitRepr :
    ∀ k : Fin 900, (toString (100 + k.val)).data.length = 3
      ∧ (toString (100 + k.val)).data.all Char.isDigit = true := by
  set_option maxRecDepth 4000 in decide

/-- Claim C9, counterexample: the claim's regex `^[A-Za-z0-9_]+\d{3}$` does
not match the result for every hint — a hint whose last segment contains a
non-word character (here `"!"`) yields `"!100"`, which the regex rejects. -/
theorem C9_username_counterexample :
    processCharacterUsername "!" 100 = "!100"
    ∧ userRegexAccepts "!100" = false := by
  refine ⟨rfl, rfl⟩

/-- Claim C9, amended: for every hint and every draw `d ∈ [100, 999]`,
`_process_character_username` returns the substring of the hint after its
final `.` (the whole hint when it has none) with the three digits of `d`
appended; the result matches `^[A-Za-z0-9_]+\d{3}$` whenever that last
segment is nonempty and consists of word characters. -/
theorem C9_username :
    ∀ (hint : String) (d : Nat), 100 ≤ d → d ≤ 999 →
    (processCharacterUsername hint d
      = String.mk (specLastSegment hint ++ (toString d).data))
    ∧ (specLastSegment hint ≠ [] →
        (specLastSegment hint).all isWordChar = true →
        userRegexAccepts (processCharacterUsername hint d) = true) := by
  intro hint d hd1 hd2
  have hstep : processCharacterUsername hint d
      = String.mk ((if hint.data.contains '.' then
          (splitDot hint.data).getLastD [] else hint.data)
        ++ (toString d).data) := rfl
  have hbase : (if hint.data.contains '.' then
      (splitDot hint.data).getLastD [] else hint.data)
      = specLastSegment hint := by
    cases hct : hint.data.contains '.' with
    | false =>
      simp only [Bool.false_eq_true, if_false]
      rw [specLastSegment, takeWhile_of_all]
      · rw [List.reverse_reverse]
      · rw [List.all_reverse]
        exact no_dot_all _ hct
    | true =>
      rw [if_pos rfl]
      rw [splitDot_getLast]
      rfl
  constructor
  · rw [hstep, hbase]
  · intro hne hall
    rw [hstep, hbase]
    have hd3 := threeDigitRepr ⟨d - 100, by omega⟩
    have hde : 100 + (d - 100) = d := by omega
    rw [hde] at hd3
    obtain ⟨hlen3, hdig⟩ := hd3
    have hlen : (specLastSegment hint ++ (toString d).data).length
        = (specLastSegment hint).length + 3 := by
      rw [List.length_append, hlen3]
    rw [userRegexAccepts]
    simp only [Bool.and_eq_true, decide_eq_true_eq]
    refine ⟨⟨?_, ?_⟩, ?_⟩
    · show 4 ≤ (specLastSegment hint ++ (toString d).data).length
      have := List.length_pos.mpr hne
      rw [hlen]
      omega
    · show ((specLastSegment hint ++ (toString d).data).take
        ((specLastSegment hint ++ (toString d).data).length - 3)).all
          isWordChar = true
      rw [hlen, show (specLastSegment hint).length + 3 - 3
        = (specLastSegment hint).length from by omega, List.take_left]
      exact hall
    · show ((specLastSegment hint ++ (toString d).data).drop
        ((specLastSegment hint ++ (toString d).data).length - 3)).all
          Char.isDigit = true
      rw [hlen, show (specLastSegment hint).length + 3 - 3
        = (specLastSegment hint).length from by omega, List.drop_left]
      exact hdig

/-- Claim C9, witness: the amended statement at the concrete hint of the
code's docstring and the draw 123. -/
theorem C9_username_witness :
    (processCharacterUsername "blackwill.meowliusma68" 123
      = String.mk (specLastSegment "blackwill.meowliusma68"
          ++ (toString 123).data))
    ∧ (specLastSegment "blackwill.meowliusma68" ≠ [] →
        (specLastSegment "blackwill.meowliusma68").all isWordChar = true →
        userRegexAccepts
          (processCharacterUsername "blackwill.meowliusma68" 123) = true) :=
  C9_username "blackwill.meowliusma68" 123 (by omega) (by omega)

end Sora2
